import Mathlib

/-!
Verification of the crypto asset-analysis pipeline
(technical_analyzer.py and scoring_selector.py).

Modelling conventions:
* Python floats are modelled as exact rationals (`ℚ`); the claims under
  study concern exact thresholds and algebraic identities, not binary
  floating-point rounding.
* Python's `round(x, n)` (round half to even on the decimal value) is
  modelled by `pyRound`.
* `dict.get(key, default)` is modelled by `Option` fields together with
  `Option.getD`; a plain `dict[key]` access on a possibly missing key
  (whose `KeyError` is caught by the enclosing `except` block and turned
  into `None`) is modelled by pattern matching on the `Option`.
* pandas specifics are reproduced where observable: `Series.diff()`
  places a missing value in position 0 which `where(delta > 0, 0)` turns
  into 0; `rolling(w).mean()` of the final window is the mean of the last
  `w` entries; elementwise division maps `g/0` with `g > 0` to `+inf`
  (so `100 - 100/(1 + inf) = 100.0`) and `0/0` to `NaN` (caught by the
  `pd.notna` guard, yielding `50.0`); the row-wise `max` used by the ATR
  skips missing values, so the first true range is `high - low`.
* Result dictionaries that merely wrap the computed lists together with a
  wall-clock timestamp and a pass-through `market_context` blob are
  modelled by the lists themselves; the run timestamp is passed in as an
  explicit `now : String` parameter.
* Python's `list.sort(key=..., reverse=True)` is a stable sort placing
  larger keys first; it is modelled by `List.insertionSort` with the
  relation `scoreGE` (stable and non-increasing on keys, hence the same
  function on lists).
-/

/-- Python `round` to an integer: round half to even on exact rationals. -/
def roundHalfEven (q : ℚ) : ℤ :=
  if q - ⌊q⌋ < 1/2 then ⌊q⌋
  else if 1/2 < q - ⌊q⌋ then ⌊q⌋ + 1
  else if ⌊q⌋ % 2 = 0 then ⌊q⌋ else ⌊q⌋ + 1

/-- Python `round(q, ndigits)` on exact rationals. -/
def pyRound (q : ℚ) (ndigits : ℕ) : ℚ :=
  (roundHalfEven (q * 10 ^ ndigits) : ℚ) / 10 ^ ndigits

/-- One OHLC bar of the input price series (a row of the `ohlc` list). -/
structure Bar where
  timestamp : ℤ
  open_ : ℚ
  high : ℚ
  low : ℚ
  close : ℚ
deriving DecidableEq

/-- One record of the data-collector output, as consumed by
`TechnicalAnalyzer.analyze_coin`.  Fields read with `dict.get` and a
default are `Option`s; fields read with a bare subscript are also
`Option`s because a missing key raises `KeyError`, which the enclosing
`except` turns into `None`. -/
structure CoinData where
  symbol : Option String
  name : Option String
  current_price : Option ℚ
  market_cap : Option ℚ
  total_volume : Option ℚ
  price_change_24h : Option ℚ
  price_change_7d : Option ℚ
  ohlc : Option (List Bar)
deriving DecidableEq

/-- The MACD result dictionary of `calculate_macd`. -/
structure Macd where
  macd : ℚ
  signal : ℚ
  histogram : ℚ
  bullish : Bool
deriving DecidableEq

/-- The trend dictionary of `detect_trend`. -/
structure Trend where
  trend : String
  strength : ℚ
deriving DecidableEq

/-- The `signals` dictionary built by `analyze_coin`. -/
structure Signals where
  ema_cross : Bool
  ema_aligned : Bool
  rsi_bullish : Bool
  rsi_value : ℚ
  macd_signal : String
  macd_histogram : ℚ
  volume_surge : Bool
  trend : String
  trend_strength : ℚ
deriving DecidableEq

/-- The `indicators` dictionary built by `analyze_coin`.  `atr` and
`atr_percent` are `Option`s because the scoring selector reads them with
`dict.get` and a default. -/
structure Indicators where
  ema_7 : ℚ
  ema_25 : ℚ
  rsi : ℚ
  macd : Macd
  atr : Option ℚ
  atr_percent : Option ℚ
deriving DecidableEq

/-- The per-asset analysis record returned by `analyze_coin`. -/
structure Analysis where
  symbol : String
  name : String
  price : ℚ
  market_cap : ℚ
  volume_24h : ℚ
  indicators : Indicators
  signals : Signals
  price_change_24h : ℚ
  price_change_7d : ℚ
deriving DecidableEq

namespace TechnicalAnalyzer

/-- Tail of the exponential moving average recursion
`ema[i] = a*x[i] + (1-a)*ema[i-1]` with accumulator `acc = ema[i-1]`. -/
def emaFrom (a : ℚ) (acc : ℚ) : List ℚ → List ℚ
  | [] => [acc]
  | x :: xs => acc :: emaFrom a (a * x + (1 - a) * acc) xs

/-- `calculate_ema`: pandas `ewm(span=period, adjust=False).mean()`, i.e.
smoothing factor `2/(period+1)`, seeded with the first data point. -/
def calculate_ema (prices : List ℚ) (period : ℕ) : List ℚ :=
  match prices with
  | [] => []
  | x :: xs => emaFrom (2 / ((period : ℚ) + 1)) x xs

/-- Successive differences `delta[i] = p[i+1] - p[i]` (pandas
`Series.diff()` without the leading missing value, which the
`where(...)` calls replace by 0 and which never lies in the final
rolling window when `len ≥ period + 1`). -/
def deltas (prices : List ℚ) : List ℚ :=
  List.zipWith (fun a b => a - b) (prices.drop 1) prices

/-- The last `period` entries of a list (the final rolling window). -/
def lastWindow (l : List ℚ) (period : ℕ) : List ℚ :=
  l.drop (l.length - period)

/-- Average of the positive successive differences over the final rolling
window (the last value of `gain.rolling(period).mean()`). -/
def avg_gain (prices : List ℚ) (period : ℕ) : ℚ :=
  ((lastWindow (deltas prices) period).map (fun d => max d 0)).sum / period

/-- Average of the negated negative successive differences over the final
rolling window (the last value of `loss.rolling(period).mean()`). -/
def avg_loss (prices : List ℚ) (period : ℕ) : ℚ :=
  ((lastWindow (deltas prices) period).map (fun d => max (-d) 0)).sum / period

/-- `calculate_rsi`.  The two degenerate branches reproduce the pandas
float semantics of `rs = gain/loss`: `0/0` is `NaN`, which fails the
`pd.notna` guard and yields `50.0`; `g/0` with `g > 0` is `+inf`, and
`100 - 100/(1 + inf)` evaluates to `100.0`. -/
def calculate_rsi (prices : List ℚ) (period : ℕ := 14) : ℚ :=
  if prices.length < period + 1 then 50
  else if avg_loss prices period = 0 then
    (if avg_gain prices period = 0 then 50 else 100)
  else 100 - 100 / (1 + avg_gain prices period / avg_loss prices period)

/-- `calculate_macd`: difference of the 12- and 26-period EMAs, a
9-period EMA signal line on it, and their difference as histogram. -/
def calculate_macd (prices : List ℚ) : Macd :=
  if prices.length < 26 then ⟨0, 0, 0, false⟩
  else
    let ema_12 := calculate_ema prices 12
    let ema_26 := calculate_ema prices 26
    let macd_line := List.zipWith (fun a b => a - b) ema_12 ema_26
    let signal_line := calculate_ema macd_line 9
    let histogram := List.zipWith (fun a b => a - b) macd_line signal_line
    let h := (histogram.getLast?).getD 0
    ⟨(macd_line.getLast?).getD 0, (signal_line.getLast?).getD 0, h,
      decide (0 < h)⟩

/-- True range per bar: `high - low` for the first bar (the shifted close
is missing there and the row-wise `max` skips it), and
`max(high-low, |high-prev_close|, |low-prev_close|)` afterwards. -/
def trueRanges (bars : List Bar) : List ℚ :=
  match bars with
  | [] => []
  | b0 :: rest =>
    (b0.high - b0.low) ::
      List.zipWith
        (fun prev b =>
          max (b.high - b.low) (max |b.high - prev.close| |b.low - prev.close|))
        (b0 :: rest) rest

/-- `calculate_atr`: trailing mean of the true range over the last
`period` bars, 0.0 for short series. -/
def calculate_atr (bars : List Bar) (period : ℕ := 14) : ℚ :=
  if bars.length < period + 1 then 0
  else
    let tr := trueRanges bars
    (tr.drop (tr.length - period)).sum / period

/-- `detect_trend`: percent change from 10 bars ago to the latest bar,
classified with a ±3% band. -/
def detect_trend (prices : List ℚ) : Trend :=
  if prices.length < 10 then ⟨"neutral", 0⟩
  else
    let recent := prices.drop (prices.length - 10)
    let change_pct := ((recent.getLast?).getD 0 - recent.headD 0) / recent.headD 0 * 100
    if 3 < change_pct then ⟨"bullish", min (|change_pct| / 5) 5⟩
    else if change_pct < -3 then ⟨"bearish", min (|change_pct| / 5) 5⟩
    else ⟨"neutral", 0⟩

/-- `analyze_coin`: builds the per-asset analysis record, returning
`none` for a series of fewer than 20 bars or when a required field is
missing (the `KeyError` is caught by the function's `except` block). -/
def analyze_coin (c : CoinData) : Option Analysis :=
  let ohlc_data := c.ohlc.getD []
  if ohlc_data.isEmpty ∨ ohlc_data.length < 20 then none
  else
    let prices := ohlc_data.map Bar.close
    let ema_7 := calculate_ema prices 7
    let ema_25 := calculate_ema prices 25
    let rsi := calculate_rsi prices 14
    let macd := calculate_macd prices
    let atr := calculate_atr ohlc_data 14
    let trend := detect_trend prices
    match c.current_price, c.symbol, c.name, c.market_cap with
    | some current_price, some symbol, some name, some market_cap =>
      let current_ema_7 := (ema_7.getLast?).getD current_price
      let current_ema_25 := (ema_25.getLast?).getD current_price
      let volume_24h := c.total_volume.getD 0
      some
        { symbol := symbol
          name := name
          price := current_price
          market_cap := market_cap
          volume_24h := volume_24h
          indicators :=
            { ema_7 := current_ema_7
              ema_25 := current_ema_25
              rsi := rsi
              macd := macd
              atr := some atr
              atr_percent :=
                some (if 0 < current_price then atr / current_price * 100 else 0) }
          signals :=
            { ema_cross := decide (current_ema_25 < current_ema_7)
              ema_aligned :=
                decide (current_ema_25 < current_ema_7 ∧ current_ema_7 < current_price)
              rsi_bullish := decide (35 ≤ rsi ∧ rsi ≤ 70)
              rsi_value := rsi
              macd_signal := if macd.bullish then "buy" else "sell"
              macd_histogram := macd.histogram
              volume_surge := decide (10000000 < volume_24h)
              trend := trend.trend
              trend_strength := trend.strength }
          price_change_24h := c.price_change_24h.getD 0
          price_change_7d := c.price_change_7d.getD 0 }
    | _, _, _, _ => none

/-- `analyze_all`: the `analyzed_coins` list of the result (the source
wraps it in a dictionary together with the run timestamp and the
pass-through `market_context`). -/
def analyze_all (coins : List CoinData) : List Analysis :=
  coins.filterMap analyze_coin

end TechnicalAnalyzer

/-- The `CryptoSignal` dataclass of the scoring selector. -/
structure CryptoSignal where
  symbol : String
  name : String
  pair : String
  price : ℚ
  market_cap : ℚ
  volume_24h : ℚ
  technical_score : ℚ
  momentum_score : ℚ
  volume_score : ℚ
  risk_score : ℚ
  final_score : ℚ
  signals : Signals
  entry_zone : List ℚ
  stop_loss : ℚ
  target_1 : ℚ
  target_2 : ℚ
  btc_correlation : ℚ
  timestamp : String
deriving DecidableEq

/-- The score dictionary returned by `calculate_score`. -/
structure ScoreBreakdown where
  momentum_score : ℚ
  volume_score : ℚ
  technical_score : ℚ
  risk_score : ℚ
  final_score : ℚ
deriving DecidableEq

/-- The levels dictionary returned by `calculate_levels`. -/
structure Levels where
  entry_zone : List ℚ
  stop_loss : ℚ
  target_1 : ℚ
  target_2 : ℚ
  risk_reward_t1 : ℚ
deriving DecidableEq

namespace ScoringSelector

def MIN_SCORE : ℚ := 7.5

def MIN_MARKET_CAP : ℚ := 100000000

/-- `market_cap_multiplier`. -/
def market_cap_multiplier (market_cap : ℚ) : ℚ :=
  if 10000000000 < market_cap then 1.1
  else if 1000000000 < market_cap then 1
  else if 100000000 < market_cap then 0.95
  else 0

/-- The momentum block of `calculate_score`: base 2, `+4` if
`ema_aligned`, `+2` if `ema_cross`, `+2` if `rsi_bullish`, capped at
10. -/
def momentumScore (a : Analysis) : ℚ :=
  min (2 + (if a.signals.ema_aligned then 4 else 0)
         + (if a.signals.ema_cross then 2 else 0)
         + (if a.signals.rsi_bullish then 2 else 0)) 10

/-- The volume block of `calculate_score`: base 4, `+3` if
`volume_surge`, `+3` if `volume_24h > 50,000,000`, capped at 10. -/
def volumeScore (a : Analysis) : ℚ :=
  min (4 + (if a.signals.volume_surge then 3 else 0)
         + (if 50000000 < a.volume_24h then 3 else 0)) 10

/-- The technical block of `calculate_score`: base 3, `+3` on a buy MACD
signal, `+2` on a bullish trend, `+2` if `40 ≤ rsi ≤ 60`, capped at
10. -/
def technicalScore (a : Analysis) : ℚ :=
  min (3 + (if a.signals.macd_signal = "buy" then 3 else 0)
         + (if a.signals.trend = "bullish" then 2 else 0)
         + (if 40 ≤ a.signals.rsi_value ∧ a.signals.rsi_value ≤ 60 then 2 else 0)) 10

/-- The risk block of `calculate_score`:
`max(0, 10 - atr_percent * 1.2)`, `atr_percent` defaulting to 5. -/
def riskScore (a : Analysis) : ℚ :=
  max 0 (10 - (a.indicators.atr_percent.getD 5) * 1.2)

/-- `calculate_score`: the four blocks, the weighted blend scaled by the
market-cap multiplier, every output field rounded to 2 decimals. -/
def calculate_score (a : Analysis) : ScoreBreakdown :=
  let momentum_score := momentumScore a
  let volume_score := volumeScore a
  let technical_score := technicalScore a
  let risk_score := riskScore a
  let final := (momentum_score * 0.35 + volume_score * 0.25
                  + technical_score * 0.25 + risk_score * 0.15)
                * market_cap_multiplier a.market_cap
  { momentum_score := pyRound momentum_score 2
    volume_score := pyRound volume_score 2
    technical_score := pyRound technical_score 2
    risk_score := pyRound risk_score 2
    final_score := pyRound final 2 }

/-- `calculate_levels`: fixed percentage offsets around the price, each
output rounded to 6 decimals (risk/reward to 2).  The `atr` argument is
accepted but unused, exactly as in the source. -/
def calculate_levels (price : ℚ) (atr : ℚ) : Levels :=
  let stop_loss := price * 0.975
  let target_1 := price * 1.10
  let target_2 := price * 1.20
  let entry_low := price * 0.985
  let entry_high := price * 1.015
  let risk := price - stop_loss
  { entry_zone := [pyRound entry_low 6, pyRound entry_high 6]
    stop_loss := pyRound stop_loss 6
    target_1 := pyRound target_1 6
    target_2 := pyRound target_2 6
    risk_reward_t1 := if 0 < risk then pyRound ((target_1 - price) / risk) 2 else 0 }

/-- The body of the per-asset loop of `select_top_opportunities`: skip
below the market-cap floor, score, skip below the score floor, otherwise
assemble the `CryptoSignal` (with the levels computed from the price and
the `atr` indicator defaulting to 2% of the price). -/
def qualifySignal (now : String) (a : Analysis) : Option CryptoSignal :=
  if a.market_cap < MIN_MARKET_CAP then none
  else
    let scores := calculate_score a
    if scores.final_score < MIN_SCORE then none
    else
      let atr := a.indicators.atr.getD (a.price * 0.02)
      let levels := calculate_levels a.price atr
      some
        { symbol := a.symbol
          name := a.name
          pair := a.symbol ++ "/USDT"
          price := a.price
          market_cap := a.market_cap
          volume_24h := a.volume_24h
          technical_score := scores.technical_score
          momentum_score := scores.momentum_score
          volume_score := scores.volume_score
          risk_score := scores.risk_score
          final_score := scores.final_score
          signals := a.signals
          entry_zone := levels.entry_zone
          stop_loss := levels.stop_loss
          target_1 := levels.target_1
          target_2 := levels.target_2
          btc_correlation := 0.75
          timestamp := now }

/-- The ordering used by `scored_coins.sort(key=lambda x: x.final_score,
reverse=True)`: larger final scores first. -/
def scoreGE (x y : CryptoSignal) : Prop :=
  y.final_score ≤ x.final_score

instance : DecidableRel scoreGE :=
  fun x y => inferInstanceAs (Decidable (y.final_score ≤ x.final_score))

instance : IsTotal CryptoSignal scoreGE :=
  ⟨fun x y => le_total y.final_score x.final_score⟩

instance : IsTrans CryptoSignal scoreGE :=
  ⟨fun _ _ _ h1 h2 => le_trans h2 h1⟩

/-- `select_top_opportunities`: filter, score, stable-sort descending by
final score (Python's stable `sort` with `reverse=True`), truncate to
10.  The source returns this `top_signals` list; the persisted result
dictionary around it is I/O glue. -/
def select_top_opportunities (now : String) (analyzed_coins : List Analysis) :
    List CryptoSignal :=
  ((analyzed_coins.filterMap (qualifySignal now)).insertionSort scoreGE).take 10

end ScoringSelector

/-- A flat OHLC bar used to build concrete inputs. -/
def flatBar : Bar := { timestamp := 0, open_ := 1, high := 1, low := 1, close := 1 }

/-- A coin record with enough bars but no `current_price` key: inside
`analyze_coin` the subscript access raises `KeyError`, which the
`except` block turns into `None`. -/
def badCoin : CoinData :=
  { symbol := some "BAD", name := some "Bad Coin", current_price := none,
    market_cap := some 500000000, total_volume := some 1000000,
    price_change_24h := some 0, price_change_7d := some 0,
    ohlc := some (List.replicate 20 flatBar) }

/-- A fully populated coin record whose price series has only 5 bars. -/
def shortCoin : CoinData :=
  { symbol := some "SHT", name := some "Short Series", current_price := some 10,
    market_cap := some 500000000, total_volume := some 1000000,
    price_change_24h := some 0, price_change_7d := some 0,
    ohlc := some (List.replicate 5 flatBar) }

/-- An analysis record with every bullish flag set, a large market cap
and zero volatility: it qualifies with the maximal final score 11. -/
def goodA : Analysis :=
  { symbol := "BTC", name := "Bitcoin", price := 100,
    market_cap := 20000000000, volume_24h := 60000000,
    indicators :=
      { ema_7 := 99, ema_25 := 98, rsi := 50,
        macd := { macd := 1, signal := 0, histogram := 1, bullish := true },
        atr := some 2, atr_percent := some 0 },
    signals :=
      { ema_cross := true, ema_aligned := true, rsi_bullish := true,
        rsi_value := 50, macd_signal := "buy", macd_histogram := 1,
        volume_surge := true, trend := "bullish", trend_strength := 3 },
    price_change_24h := 1, price_change_7d := 2 }

/-- The trading signal that `select_top_opportunities "t" [goodA]`
produces. -/
def sig0 : CryptoSignal :=
  { symbol := "BTC", name := "Bitcoin", pair := "BTC/USDT", price := 100,
    market_cap := 20000000000, volume_24h := 60000000,
    technical_score := 10, momentum_score := 10, volume_score := 10,
    risk_score := 10, final_score := 11, signals := goodA.signals,
    entry_zone := [98.5, 101.5], stop_loss := 97.5, target_1 := 110,
    target_2 := 120, btc_correlation := 0.75, timestamp := "t" }

section RoundingLemmas

/-- The half-even rounding never goes below the floor. -/
lemma floor_le_roundHalfEven (q : ℚ) : ⌊q⌋ ≤ roundHalfEven q := by
  unfold roundHalfEven
  split_ifs <;> omega

/-- The half-even rounding of a value at most an integer stays at most
that integer. -/
lemma roundHalfEven_le_intCast {q : ℚ} {n : ℤ} (h : q ≤ (n : ℚ)) :
    roundHalfEven q ≤ n := by
  unfold roundHalfEven
  have hfl : ⌊q⌋ ≤ n := by
    have := Int.floor_le_floor h
    rwa [Int.floor_intCast] at this
  split_ifs with h1 h2 h3
  · exact hfl
  · have hflq : (⌊q⌋ : ℚ) + 1/2 < q := by linarith
    have : (⌊q⌋ : ℚ) < (n : ℚ) := by linarith
    have : ⌊q⌋ < n := by exact_mod_cast this
    omega
  · exact hfl
  · have heq : q - (⌊q⌋ : ℚ) = 1/2 := le_antisymm (not_lt.mp h2) (not_lt.mp h1)
    have : (⌊q⌋ : ℚ) < (n : ℚ) := by linarith
    have : ⌊q⌋ < n := by exact_mod_cast this
    omega

/-- The half-even rounding of a value at least an integer stays at least
that integer. -/
lemma intCast_le_roundHalfEven {q : ℚ} {n : ℤ} (h : (n : ℚ) ≤ q) :
    n ≤ roundHalfEven q :=
  le_trans (Int.le_floor.mpr h) (floor_le_roundHalfEven q)

/-- Decimal rounding preserves non-negativity. -/
lemma pyRound_nonneg {q : ℚ} (n : ℕ) (h : 0 ≤ q) : 0 ≤ pyRound q n := by
  unfold pyRound
  apply div_nonneg _ (by positivity)
  have h0 : ((0 : ℤ) : ℚ) ≤ q * 10 ^ n := by
    push_cast
    positivity
  exact_mod_cast intCast_le_roundHalfEven h0

/-- Decimal rounding preserves an integer upper bound. -/
lemma pyRound_le_intCast {q : ℚ} {z : ℤ} (n : ℕ) (h : q ≤ (z : ℚ)) :
    pyRound q n ≤ (z : ℚ) := by
  unfold pyRound
  rw [div_le_iff₀ (by positivity : (0 : ℚ) < 10 ^ n)]
  have h1 : q * 10 ^ n ≤ ((z * 10 ^ n : ℤ) : ℚ) := by
    push_cast
    exact mul_le_mul_of_nonneg_right h (by positivity)
  exact_mod_cast roundHalfEven_le_intCast h1

end RoundingLemmas

namespace TechnicalAnalyzer

/-- The average gain over the trailing window is non-negative. -/
lemma avg_gain_nonneg (prices : List ℚ) (period : ℕ) :
    0 ≤ avg_gain prices period := by
  unfold avg_gain
  apply div_nonneg _ (by positivity)
  apply List.sum_nonneg
  intro x hx
  simp only [List.mem_map] at hx
  obtain ⟨d, _, rfl⟩ := hx
  exact le_max_right d 0

/-- The average loss over the trailing window is non-negative. -/
lemma avg_loss_nonneg (prices : List ℚ) (period : ℕ) :
    0 ≤ avg_loss prices period := by
  unfold avg_loss
  apply div_nonneg _ (by positivity)
  apply List.sum_nonneg
  intro x hx
  simp only [List.mem_map] at hx
  obtain ⟨d, _, rfl⟩ := hx
  exact le_max_right (-d) 0

end TechnicalAnalyzer


/-- C5: `market_cap_multiplier` returns 0.0 at and below a cap of
100,000,000, 0.95 strictly above that up to and including 1,000,000,000,
1.0 strictly above that up to and including 10,000,000,000, and 1.1
strictly above 10,000,000,000. -/
theorem market_cap_multiplier_bands (cap : ℚ) :
    (cap ≤ 100000000 → ScoringSelector.market_cap_multiplier cap = 0) ∧
    (100000000 < cap → cap ≤ 1000000000 →
      ScoringSelector.market_cap_multiplier cap = 0.95) ∧
    (1000000000 < cap → cap ≤ 10000000000 →
      ScoringSelector.market_cap_multiplier cap = 1) ∧
    (10000000000 < cap → ScoringSelector.market_cap_multiplier cap = 1.1) := by
  unfold ScoringSelector.market_cap_multiplier
  refine ⟨fun h => ?_, fun h1 h2 => ?_, fun h1 h2 => ?_, fun h => ?_⟩ <;>
    split_ifs <;> first | rfl | linarith

/-- Witness for C5: one cap in each of the four bands. -/
theorem market_cap_multiplier_bands_witness :
    ScoringSelector.market_cap_multiplier 100000000 = 0 ∧
    ScoringSelector.market_cap_multiplier 500000000 = 0.95 ∧
    ScoringSelector.market_cap_multiplier 5000000000 = 1 ∧
    ScoringSelector.market_cap_multiplier 20000000000 = 1.1 :=
  ⟨(market_cap_multiplier_bands 100000000).1 (by norm_num),
   (market_cap_multiplier_bands 500000000).2.1 (by norm_num) (by norm_num),
   (market_cap_multiplier_bands 5000000000).2.2.1 (by norm_num) (by norm_num),
   (market_cap_multiplier_bands 20000000000).2.2.2 (by norm_num)⟩

/-- C6: `calculate_score` returns the four block scores and the weighted
blend momentum×0.35 + volume×0.25 + technical×0.25 + risk×0.15 scaled by
the market-cap multiplier, every output field rounded to 2 decimal
places (the blend is taken over the unrounded block scores). -/
theorem calculate_score_weighted_blend (a : Analysis) :
    ScoringSelector.calculate_score a =
      { momentum_score := pyRound (ScoringSelector.momentumScore a) 2
        volume_score := pyRound (ScoringSelector.volumeScore a) 2
        technical_score := pyRound (ScoringSelector.technicalScore a) 2
        risk_score := pyRound (ScoringSelector.riskScore a) 2
        final_score := pyRound
          ((ScoringSelector.momentumScore a * 0.35
              + ScoringSelector.volumeScore a * 0.25
              + ScoringSelector.technicalScore a * 0.25
              + ScoringSelector.riskScore a * 0.15)
            * ScoringSelector.market_cap_multiplier a.market_cap) 2 } := rfl

/-- Counterexample for C1: the strictly increasing 15-point series
1,…,15 has a trailing window with average loss 0, yet `calculate_rsi`
returns 100.0 (the pandas `gain/0 = inf` path), not 50.0. -/
theorem calculate_rsi_zero_loss_counterexample :
    14 + 1 ≤ ([1, 2, 3, 4, 5, 6, 7, 8, 9, 10, 11, 12, 13, 14, 15] : List ℚ).length ∧
    TechnicalAnalyzer.avg_loss
      [1, 2, 3, 4, 5, 6, 7, 8, 9, 10, 11, 12, 13, 14, 15] 14 = 0 ∧
    TechnicalAnalyzer.calculate_rsi
      [1, 2, 3, 4, 5, 6, 7, 8, 9, 10, 11, 12, 13, 14, 15] 14 = 100 ∧
    TechnicalAnalyzer.calculate_rsi
      [1, 2, 3, 4, 5, 6, 7, 8, 9, 10, 11, 12, 13, 14, 15] 14 ≠ 50 := by
  norm_num [TechnicalAnalyzer.calculate_rsi, TechnicalAnalyzer.avg_gain,
    TechnicalAnalyzer.avg_loss, TechnicalAnalyzer.lastWindow,
    TechnicalAnalyzer.deltas]

/-- C1 (amended): for a series with at least period+1 points whose
trailing window has average loss 0, `calculate_rsi` returns 50.0 only
when the average gain is also 0 (the undefined 0/0 case) and returns
100.0 when the average gain is positive. -/
theorem calculate_rsi_zero_loss (prices : List ℚ) (period : ℕ)
    (h1 : period + 1 ≤ prices.length)
    (h2 : TechnicalAnalyzer.avg_loss prices period = 0) :
    TechnicalAnalyzer.calculate_rsi prices period =
      if TechnicalAnalyzer.avg_gain prices period = 0 then 50 else 100 := by
  unfold TechnicalAnalyzer.calculate_rsi
  rw [if_neg (by omega), if_pos h2]

/-- Witness for C1 (amended): a constant series yields 50.0 and a
strictly rising series yields 100.0. -/
theorem calculate_rsi_zero_loss_witness :
    TechnicalAnalyzer.calculate_rsi (List.replicate 15 (5 : ℚ)) 14 = 50 ∧
    TechnicalAnalyzer.calculate_rsi
      [1, 2, 3, 4, 5, 6, 7, 8, 9, 10, 11, 12, 13, 14, 16] 14 = 100 := by
  have w1 := calculate_rsi_zero_loss (List.replicate 15 (5 : ℚ)) 14
    (by norm_num)
    (by norm_num [TechnicalAnalyzer.avg_loss, TechnicalAnalyzer.lastWindow,
      TechnicalAnalyzer.deltas, List.replicate])
  have w2 := calculate_rsi_zero_loss [1, 2, 3, 4, 5, 6, 7, 8, 9, 10, 11, 12, 13, 14, 16] 14
    (by norm_num)
    (by norm_num [TechnicalAnalyzer.avg_loss, TechnicalAnalyzer.lastWindow,
      TechnicalAnalyzer.deltas])
  refine ⟨w1.trans ?_, w2.trans ?_⟩
  · rw [if_pos]
    norm_num [TechnicalAnalyzer.avg_gain, TechnicalAnalyzer.lastWindow,
      TechnicalAnalyzer.deltas, List.replicate]
  · rw [if_neg]
    norm_num [TechnicalAnalyzer.avg_gain, TechnicalAnalyzer.lastWindow,
      TechnicalAnalyzer.deltas]

/-- C7: `calculate_rsi` returns exactly 50.0 for a series with fewer
than period+1 points, and a value in [0,100] for any series with at
least period+1 points. -/
theorem calculate_rsi_range (prices : List ℚ) (period : ℕ) :
    (prices.length < period + 1 →
      TechnicalAnalyzer.calculate_rsi prices period = 50) ∧
    (period + 1 ≤ prices.length →
      0 ≤ TechnicalAnalyzer.calculate_rsi prices period ∧
      TechnicalAnalyzer.calculate_rsi prices period ≤ 100) := by
  constructor
  · intro h
    unfold TechnicalAnalyzer.calculate_rsi
    rw [if_pos h]
  · intro h
    unfold TechnicalAnalyzer.calculate_rsi
    rw [if_neg (by omega)]
    by_cases hl : TechnicalAnalyzer.avg_loss prices period = 0
    · rw [if_pos hl]
      split_ifs <;> norm_num
    · rw [if_neg hl]
      have hg : 0 ≤ TechnicalAnalyzer.avg_gain prices period :=
        TechnicalAnalyzer.avg_gain_nonneg prices period
      have hl0 : 0 < TechnicalAnalyzer.avg_loss prices period :=
        lt_of_le_of_ne (TechnicalAnalyzer.avg_loss_nonneg prices period) (Ne.symm hl)
      have hrs : 0 ≤ TechnicalAnalyzer.avg_gain prices period
          / TechnicalAnalyzer.avg_loss prices period :=
        div_nonneg hg hl0.le
      have hden : (0 : ℚ) < 1 + TechnicalAnalyzer.avg_gain prices period
          / TechnicalAnalyzer.avg_loss prices period := by linarith
      have hup : 100 / (1 + TechnicalAnalyzer.avg_gain prices period
          / TechnicalAnalyzer.avg_loss prices period) ≤ 100 :=
        div_le_self (by norm_num) (by linarith)
      have hlo : 0 ≤ 100 / (1 + TechnicalAnalyzer.avg_gain prices period
          / TechnicalAnalyzer.avg_loss prices period) := by positivity
      constructor <;> linarith

/-- Witness for C7: a 3-point series returns the neutral 50.0, and a
15-point series with both gains and losses lands in [0,100]. -/
theorem calculate_rsi_range_witness :
    TechnicalAnalyzer.calculate_rsi [1, 2, 3] 14 = 50 ∧
    (0 ≤ TechnicalAnalyzer.calculate_rsi
        [1, 3, 2, 4, 3, 5, 4, 6, 5, 7, 6, 8, 7, 9, 8] 14 ∧
      TechnicalAnalyzer.calculate_rsi
        [1, 3, 2, 4, 3, 5, 4, 6, 5, 7, 6, 8, 7, 9, 8] 14 ≤ 100) :=
  ⟨(calculate_rsi_range [1, 2, 3] 14).1 (by norm_num),
   (calculate_rsi_range [1, 3, 2, 4, 3, 5, 4, 6, 5, 7, 6, 8, 7, 9, 8] 14).2
      (by norm_num)⟩

/-- Counterexample for C8: at price 0.0123456 the returned stop loss is
the 6-decimal rounding 0.012037, not the exact product
price × 0.975 = 0.01203696. -/
theorem calculate_levels_rounding_counterexample :
    (ScoringSelector.calculate_levels (123456/10000000) 0).stop_loss ≠
      (123456/10000000 : ℚ) * 0.975 := by
  norm_num [ScoringSelector.calculate_levels, pyRound, roundHalfEven]

/-- C8 (amended): for every positive price, `calculate_levels` returns
the fixed-percentage offsets rounded to 6 decimal places —
stop_loss = round₆(price × 0.975), target_1 = round₆(price × 1.10),
target_2 = round₆(price × 1.20),
entry_zone = [round₆(price × 0.985), round₆(price × 1.015)] — and
risk_reward_t1 = round₂((target_1 − price)/(price − stop_loss)) over the
unrounded levels, which is exactly 4.0 because the risk
price − stop_loss = 0.025 × price is positive. -/
theorem calculate_levels_spec (price atr : ℚ) (h : 0 < price) :
    ScoringSelector.calculate_levels price atr =
      { entry_zone := [pyRound (price * 0.985) 6, pyRound (price * 1.015) 6]
        stop_loss := pyRound (price * 0.975) 6
        target_1 := pyRound (price * 1.10) 6
        target_2 := pyRound (price * 1.20) 6
        risk_reward_t1 := 4 } := by
  have hr : (0 : ℚ) < price - price * 0.975 := by nlinarith
  have hq : (price * 1.10 - price) / (price - price * 0.975) = 4 := by
    rw [div_eq_iff (ne_of_gt hr)]
    ring
  simp only [ScoringSelector.calculate_levels]
  rw [if_pos hr, hq]
  have h4 : pyRound 4 2 = 4 := by norm_num [pyRound, roundHalfEven]
  rw [h4]

/-- Witness for C8: at price 100 the levels are exactly
stop_loss = 97.5, target_1 = 110, target_2 = 120,
entry_zone = [98.5, 101.5] and risk_reward_t1 = 4. -/
theorem calculate_levels_spec_witness :
    ScoringSelector.calculate_levels 100 5 =
      { entry_zone := [98.5, 101.5], stop_loss := 97.5, target_1 := 110,
        target_2 := 120, risk_reward_t1 := 4 } := by
  rw [calculate_levels_spec 100 5 (by norm_num)]
  norm_num [pyRound, roundHalfEven]

/-- C4: for an analysis record with a non-negative `atr_percent` (as
every record built by `analyze_coin` has, the `dict.get` default 5
included), every block score of `calculate_score` lies in [0,10] and the
final score lies in [0,11]. -/
theorem calculate_score_range (a : Analysis)
    (h : 0 ≤ a.indicators.atr_percent.getD 5) :
    (0 ≤ (ScoringSelector.calculate_score a).momentum_score ∧
      (ScoringSelector.calculate_score a).momentum_score ≤ 10) ∧
    (0 ≤ (ScoringSelector.calculate_score a).volume_score ∧
      (ScoringSelector.calculate_score a).volume_score ≤ 10) ∧
    (0 ≤ (ScoringSelector.calculate_score a).technical_score ∧
      (ScoringSelector.calculate_score a).technical_score ≤ 10) ∧
    (0 ≤ (ScoringSelector.calculate_score a).risk_score ∧
      (ScoringSelector.calculate_score a).risk_score ≤ 10) ∧
    (0 ≤ (ScoringSelector.calculate_score a).final_score ∧
      (ScoringSelector.calculate_score a).final_score ≤ 11) := by
  have hm : 0 ≤ ScoringSelector.momentumScore a ∧
      ScoringSelector.momentumScore a ≤ 10 := by
    unfold ScoringSelector.momentumScore
    exact ⟨le_min (by split_ifs <;> norm_num) (by norm_num), min_le_right _ _⟩
  have hv : 0 ≤ ScoringSelector.volumeScore a ∧
      ScoringSelector.volumeScore a ≤ 10 := by
    unfold ScoringSelector.volumeScore
    exact ⟨le_min (by split_ifs <;> norm_num) (by norm_num), min_le_right _ _⟩
  have ht : 0 ≤ ScoringSelector.technicalScore a ∧
      ScoringSelector.technicalScore a ≤ 10 := by
    unfold ScoringSelector.technicalScore
    exact ⟨le_min (by split_ifs <;> norm_num) (by norm_num), min_le_right _ _⟩
  have hr : 0 ≤ ScoringSelector.riskScore a ∧
      ScoringSelector.riskScore a ≤ 10 := by
    unfold ScoringSelector.riskScore
    refine ⟨le_max_left 0 _, max_le (by norm_num) ?_⟩
    have : 0 ≤ a.indicators.atr_percent.getD 5 * 1.2 :=
      mul_nonneg h (by norm_num)
    linarith
  have hmult : 0 ≤ ScoringSelector.market_cap_multiplier a.market_cap ∧
      ScoringSelector.market_cap_multiplier a.market_cap ≤ 1.1 := by
    unfold ScoringSelector.market_cap_multiplier
    split_ifs <;> norm_num
  have hb0 : 0 ≤ ScoringSelector.momentumScore a * 0.35
      + ScoringSelector.volumeScore a * 0.25
      + ScoringSelector.technicalScore a * 0.25
      + ScoringSelector.riskScore a * 0.15 := by
    have := hm.1; have := hv.1; have := ht.1; have := hr.1
    linarith
  have hb1 : ScoringSelector.momentumScore a * 0.35
      + ScoringSelector.volumeScore a * 0.25
      + ScoringSelector.technicalScore a * 0.25
      + ScoringSelector.riskScore a * 0.15 ≤ 10 := by
    have := hm.2; have := hv.2; have := ht.2; have := hr.2
    linarith
  have hf0 : 0 ≤ (ScoringSelector.momentumScore a * 0.35
      + ScoringSelector.volumeScore a * 0.25
      + ScoringSelector.technicalScore a * 0.25
      + ScoringSelector.riskScore a * 0.15)
      * ScoringSelector.market_cap_multiplier a.market_cap :=
    mul_nonneg hb0 hmult.1
  have hf1 : (ScoringSelector.momentumScore a * 0.35
      + ScoringSelector.volumeScore a * 0.25
      + ScoringSelector.technicalScore a * 0.25
      + ScoringSelector.riskScore a * 0.15)
      * ScoringSelector.market_cap_multiplier a.market_cap ≤ 11 := by
    have h10 := mul_le_mul hb1 hmult.2 hmult.1 (by norm_num : (0:ℚ) ≤ 10)
    linarith
  simp only [ScoringSelector.calculate_score]
  refine ⟨⟨?_, ?_⟩, ⟨?_, ?_⟩, ⟨?_, ?_⟩, ⟨?_, ?_⟩, ⟨?_, ?_⟩⟩
  · exact pyRound_nonneg 2 hm.1
  · exact_mod_cast pyRound_le_intCast 2 (by exact_mod_cast hm.2)
  · exact pyRound_nonneg 2 hv.1
  · exact_mod_cast pyRound_le_intCast 2 (by exact_mod_cast hv.2)
  · exact pyRound_nonneg 2 ht.1
  · exact_mod_cast pyRound_le_intCast 2 (by exact_mod_cast ht.2)
  · exact pyRound_nonneg 2 hr.1
  · exact_mod_cast pyRound_le_intCast 2 (by exact_mod_cast hr.2)
  · exact pyRound_nonneg 2 hf0
  · exact_mod_cast pyRound_le_intCast 2 (by exact_mod_cast hf1)

/-- Witness for C4: the fully bullish record scores 10/10/10/10 and a
final score of 11, all within the claimed ranges. -/
theorem calculate_score_range_witness :
    (0 ≤ (ScoringSelector.calculate_score goodA).momentum_score ∧
      (ScoringSelector.calculate_score goodA).momentum_score ≤ 10) ∧
    (0 ≤ (ScoringSelector.calculate_score goodA).volume_score ∧
      (ScoringSelector.calculate_score goodA).volume_score ≤ 10) ∧
    (0 ≤ (ScoringSelector.calculate_score goodA).technical_score ∧
      (ScoringSelector.calculate_score goodA).technical_score ≤ 10) ∧
    (0 ≤ (ScoringSelector.calculate_score goodA).risk_score ∧
      (ScoringSelector.calculate_score goodA).risk_score ≤ 10) ∧
    (0 ≤ (ScoringSelector.calculate_score goodA).final_score ∧
      (ScoringSelector.calculate_score goodA).final_score ≤ 11) :=
  calculate_score_range goodA (by norm_num [goodA])

/-- A signal emitted by the qualification step passed both floors and
carries the constant correlation and pair fields. -/
lemma mem_qualifySignal {now : String} {a : Analysis} {s : CryptoSignal}
    (h : ScoringSelector.qualifySignal now a = some s) :
    (100000000 : ℚ) ≤ s.market_cap ∧ (7.5 : ℚ) ≤ s.final_score ∧
    s.btc_correlation = 0.75 ∧ s.pair = s.symbol ++ "/USDT" := by
  simp only [ScoringSelector.qualifySignal] at h
  split_ifs at h with h1 h2
  injection h with h
  subst h
  refine ⟨?_, ?_, rfl, rfl⟩
  · have := not_lt.mp h1
    simpa [ScoringSelector.MIN_MARKET_CAP] using this
  · have := not_lt.mp h2
    simpa [ScoringSelector.MIN_SCORE] using this

/-- Every signal of the truncated, sorted output comes from some input
analysis through the qualification step. -/
lemma mem_select_top {now : String} {l : List Analysis} {s : CryptoSignal}
    (h : s ∈ ScoringSelector.select_top_opportunities now l) :
    ∃ a, a ∈ l ∧ ScoringSelector.qualifySignal now a = some s := by
  unfold ScoringSelector.select_top_opportunities at h
  have h1 := (List.take_sublist 10 _).subset h
  rw [List.mem_insertionSort] at h1
  exact List.mem_filterMap.mp h1

/-- Inserting a signal into a list keeps the sublist of any given final
score intact, with the inserted signal in front when it has that score:
the insertion point lies before every element of equal key because the
walk only passes strictly larger keys. -/
lemma filter_score_orderedInsert (v : ℚ) (x : CryptoSignal)
    (l : List CryptoSignal) :
    (l.orderedInsert ScoringSelector.scoreGE x).filter
        (fun s => decide (s.final_score = v)) =
      if x.final_score = v then
        x :: l.filter (fun s => decide (s.final_score = v))
      else l.filter (fun s => decide (s.final_score = v)) := by
  induction l with
  | nil =>
    by_cases hx : x.final_score = v <;>
      simp [List.orderedInsert, List.filter, hx]
  | cons y ys ih =>
    rw [List.orderedInsert]
    by_cases hxy : ScoringSelector.scoreGE x y
    · rw [if_pos hxy]
      by_cases hx : x.final_score = v <;>
        simp [List.filter_cons, hx]
    · rw [if_neg hxy]
      have hlt : x.final_score < y.final_score := not_le.mp hxy
      by_cases hy : y.final_score = v
      · have hx : ¬x.final_score = v := by
          rw [hy] at hlt
          exact ne_of_lt hlt
        simp [List.filter_cons, hx, hy, ih]
      · by_cases hx : x.final_score = v <;>
          simp [List.filter_cons, hx, hy, ih]

/-- The stable descending sort keeps the signals of any given final
score in their original relative order. -/
lemma filter_score_insertionSort (v : ℚ) (l : List CryptoSignal) :
    (l.insertionSort ScoringSelector.scoreGE).filter
        (fun s => decide (s.final_score = v)) =
      l.filter (fun s => decide (s.final_score = v)) := by
  induction l with
  | nil => rfl
  | cons x xs ih =>
    rw [List.insertionSort, filter_score_orderedInsert]
    by_cases hx : x.final_score = v
    · rw [if_pos hx, ih, List.filter_cons, if_pos (by simp [hx])]
    · rw [if_neg hx, ih, List.filter_cons, if_neg (by simp [hx])]

/-- Filtering a prefix of a list yields a prefix of the filtered list. -/
lemma exists_filter_take {α : Type} (p : α → Bool) :
    ∀ (l : List α) (n : ℕ), ∃ m, (l.take n).filter p = (l.filter p).take m := by
  intro l
  induction l with
  | nil =>
    intro n
    exact ⟨0, by simp⟩
  | cons x xs ih =>
    intro n
    cases n with
    | zero => exact ⟨0, by simp⟩
    | succ n =>
      obtain ⟨m, hm⟩ := ih n
      by_cases hx : p x
      · exact ⟨m + 1, by simp [List.filter_cons, hx, hm]⟩
      · exact ⟨m, by simp [List.filter_cons, hx, hm]⟩

/-- The single-asset batch `[goodA]` produces exactly the signal
`sig0`. -/
lemma select_top_goodA_eval :
    ScoringSelector.select_top_opportunities "t" [goodA] = [sig0] := by
  norm_num [ScoringSelector.select_top_opportunities, ScoringSelector.qualifySignal,
    ScoringSelector.calculate_score, ScoringSelector.momentumScore,
    ScoringSelector.volumeScore, ScoringSelector.technicalScore,
    ScoringSelector.riskScore, ScoringSelector.market_cap_multiplier,
    ScoringSelector.calculate_levels, ScoringSelector.MIN_SCORE,
    ScoringSelector.MIN_MARKET_CAP, goodA, sig0, pyRound, roundHalfEven,
    List.insertionSort, List.orderedInsert, List.filterMap_cons, List.filterMap_nil,
    List.take_succ_cons, List.take_nil]
  rfl

/-- C2: a per-asset failure (any coin on which `analyze_coin` comes back
`None`, e.g. a malformed record) excludes only that asset: the rest of
the batch analyses identically, and the downstream selection — which,
like `analyze_all`, is a total function returning a typed (possibly
empty) list — is unchanged. -/
theorem per_asset_failure_isolated (l1 l2 : List CoinData) (c : CoinData)
    (now : String) (h : TechnicalAnalyzer.analyze_coin c = none) :
    TechnicalAnalyzer.analyze_all (l1 ++ c :: l2) =
      TechnicalAnalyzer.analyze_all (l1 ++ l2) ∧
    ScoringSelector.select_top_opportunities now
        (TechnicalAnalyzer.analyze_all (l1 ++ c :: l2)) =
      ScoringSelector.select_top_opportunities now
        (TechnicalAnalyzer.analyze_all (l1 ++ l2)) := by
  have key : TechnicalAnalyzer.analyze_all (l1 ++ c :: l2) =
      TechnicalAnalyzer.analyze_all (l1 ++ l2) := by
    simp [TechnicalAnalyzer.analyze_all, List.filterMap_append,
      List.filterMap_cons, h]
  exact ⟨key, by rw [key]⟩

/-- Witness for C2: the coin without a price field is dropped and the
empty selection is unchanged. -/
theorem per_asset_failure_isolated_witness :
    TechnicalAnalyzer.analyze_all ([] ++ badCoin :: []) =
      TechnicalAnalyzer.analyze_all ([] ++ []) ∧
    ScoringSelector.select_top_opportunities "t"
        (TechnicalAnalyzer.analyze_all ([] ++ badCoin :: [])) =
      ScoringSelector.select_top_opportunities "t"
        (TechnicalAnalyzer.analyze_all ([] ++ [])) :=
  per_asset_failure_isolated [] [] badCoin "t" rfl

/-- C9: an asset whose price series has fewer than 20 bars yields no
analysis record — `analyze_coin` returns `None` and `analyze_all` of a
batch containing it equals `analyze_all` of the batch without it. -/
theorem short_series_skipped (c : CoinData) (l1 l2 : List CoinData)
    (h : (c.ohlc.getD []).length < 20) :
    TechnicalAnalyzer.analyze_coin c = none ∧
    TechnicalAnalyzer.analyze_all (l1 ++ c :: l2) =
      TechnicalAnalyzer.analyze_all (l1 ++ l2) := by
  have hc : TechnicalAnalyzer.analyze_coin c = none := by
    simp only [TechnicalAnalyzer.analyze_coin]
    rw [if_pos (Or.inr h)]
  exact ⟨hc, by simp [TechnicalAnalyzer.analyze_all, List.filterMap_append,
    List.filterMap_cons, hc]⟩

/-- Witness for C9: the 5-bar coin is skipped without an error. -/
theorem short_series_skipped_witness :
    TechnicalAnalyzer.analyze_coin shortCoin = none ∧
    TechnicalAnalyzer.analyze_all ([] ++ shortCoin :: []) =
      TechnicalAnalyzer.analyze_all ([] ++ []) :=
  short_series_skipped shortCoin [] [] (by norm_num [shortCoin])

/-- C3: the top-opportunities list has at most 10 entries, contains no
signal below the market-cap floor 100,000,000 or the score floor 7.5, is
sorted non-increasing by final score, and equal final scores keep the
original iteration order: for every score value, its signals in the
output form a prefix of its signals in the qualified list, which itself
preserves the input order. -/
theorem select_top_invariants (now : String) (analyzed : List Analysis) :
    (ScoringSelector.select_top_opportunities now analyzed).length ≤ 10 ∧
    (∀ s ∈ ScoringSelector.select_top_opportunities now analyzed,
      (100000000 : ℚ) ≤ s.market_cap ∧ (7.5 : ℚ) ≤ s.final_score) ∧
    List.Sorted ScoringSelector.scoreGE
      (ScoringSelector.select_top_opportunities now analyzed) ∧
    (∀ v : ℚ, ∃ m,
      (ScoringSelector.select_top_opportunities now analyzed).filter
          (fun s => decide (s.final_score = v)) =
        ((analyzed.filterMap (ScoringSelector.qualifySignal now)).filter
          (fun s => decide (s.final_score = v))).take m) := by
  refine ⟨?_, ?_, ?_, ?_⟩
  · unfold ScoringSelector.select_top_opportunities
    rw [List.length_take]
    exact min_le_left _ _
  · intro s hs
    obtain ⟨a, _, ha⟩ := mem_select_top hs
    exact ⟨(mem_qualifySignal ha).1, (mem_qualifySignal ha).2.1⟩
  · unfold ScoringSelector.select_top_opportunities
    exact List.Pairwise.sublist (List.take_sublist 10 _)
      (List.sorted_insertionSort _ _)
  · intro v
    unfold ScoringSelector.select_top_opportunities
    obtain ⟨m, hm⟩ := exists_filter_take (fun s => decide (s.final_score = v))
      ((analyzed.filterMap (ScoringSelector.qualifySignal now)).insertionSort
        ScoringSelector.scoreGE) 10
    exact ⟨m, by rw [hm, filter_score_insertionSort]⟩

/-- Witness for C3: on the single-asset batch the output has length 1
and its signal satisfies both floors. -/
theorem select_top_invariants_witness :
    (ScoringSelector.select_top_opportunities "t" [goodA]).length ≤ 10 ∧
    ((100000000 : ℚ) ≤ sig0.market_cap ∧ (7.5 : ℚ) ≤ sig0.final_score) := by
  have h := select_top_invariants "t" [goodA]
  refine ⟨h.1, h.2.1 sig0 ?_⟩
  rw [select_top_goodA_eval]
  exact List.mem_singleton.mpr rfl

/-- C10: every emitted trading signal carries the hard-coded correlation
0.75 and the pair label symbol ++ "/USDT", independent of the input. -/
theorem signal_constant_fields (now : String) (l : List Analysis)
    (s : CryptoSignal)
    (h : s ∈ ScoringSelector.select_top_opportunities now l) :
    s.btc_correlation = 0.75 ∧ s.pair = s.symbol ++ "/USDT" := by
  obtain ⟨a, _, ha⟩ := mem_select_top h
  exact ⟨(mem_qualifySignal ha).2.2.1, (mem_qualifySignal ha).2.2.2⟩

/-- Witness for C10: the emitted signal of the single-asset batch. -/
theorem signal_constant_fields_witness :
    sig0.btc_correlation = 0.75 ∧ sig0.pair = sig0.symbol ++ "/USDT" := by
  refine signal_constant_fields "t" [goodA] sig0 ?_
  rw [select_top_goodA_eval]
  exact List.mem_singleton.mpr rfl
